import Mathlib

/-!
Verification of the Bukr ticket lifecycle core (backend/core/src).

The definitions below are a shallow embedding of the Rust source:
  - tickets/service.rs    (TicketService.purchase)
  - tickets/repository.rs (create_with_tx and the database trigger it documents)
  - promos/repository.rs  (PromoRepository.validate)
  - payments/service.rs   (PaymentService: initialize_payment, webhook handling,
                           signature verification)
  - payments/handler.rs   (paystack_webhook, stripe_webhook routes)
  - scanner/service.rs    (ScannerService: validate_by_ticket_id, mark_used)

Conventions of the embedding:
  - Postgres rows become Lean structures; a table becomes a `List` of rows.
  - The storage-level serialization (row locks / conditional updates) becomes
    explicit sequential state passing: each operation is a function from the
    store to `Except AppErr` of the new store.  On `Except.error` the
    transaction is rolled back, so the caller keeps the old store.
  - `rust_decimal::Decimal` becomes a mantissa/scale pair `Dec` (value
    m / 10^s).  Subtraction aligns scales, multiplication adds scales, and
    division returns the exact quotient at the smallest sufficient scale up
    to the crate's 28-digit cap, exactly the behaviour exercised here; the
    over-28-digit rounding branch is approximated by truncation and is not
    exercised by any claim.  The 96-bit mantissa cap is not modelled (all
    claim inputs are far below it).
  - Machine integers (i32/i64 columns) become `Int`; no claim exercises
    integer overflow.
  - External effects (HMAC primitive from the hmac/sha2 crates, serde JSON
    parsing, the reqwest call to the provider, clock and RNG) are passed in
    as explicit function/value parameters.
-/

namespace Bukr

/-- Ticket status: the closed set of statuses the system writes
(`tickets.status` is a text column; the source writes exactly these five). -/
inductive TicketStatus where
  | pending
  | valid
  | used
  | cancelled
  | failed
  deriving DecidableEq, Repr

/-- The string stored in the `status` column for each status. -/
def TicketStatus.toDb : TicketStatus → String
  | .pending => "pending"
  | .valid => "valid"
  | .used => "used"
  | .cancelled => "cancelled"
  | .failed => "failed"

/-- `payment_transactions.status`. -/
inductive TxnStatus where
  | pending
  | success
  | failed
  deriving DecidableEq, Repr

/-- AppError from error.rs (the `Database` payload stands for the sqlx error
message). -/
inductive AppErr where
  | NotFound (msg : String)
  | Validation (msg : String)
  | BadRequest (msg : String)
  | Unauthorized
  | Forbidden
  | Conflict (msg : String)
  | TicketsExhausted
  | PromoInvalid (msg : String)
  | PaymentFailed (msg : String)
  | TicketAlreadyUsed
  | Database (msg : String)
  | Internal (msg : String)
  deriving DecidableEq, Repr

/-- A single-quote character, used in error message strings. -/
def apos : String := String.singleton (Char.ofNat 39)

/-! ## Exact decimal arithmetic (rust_decimal) -/

/-- `rust_decimal::Decimal` as mantissa/scale: the represented value is
`m / 10 ^ s`. -/
structure Dec where
  m : Int
  s : Nat
  deriving DecidableEq, Repr

/-- The rational value of a decimal. -/
def Dec.val (d : Dec) : ℚ := (d.m : ℚ) / (10 : ℚ) ^ d.s

/-- Decimal subtraction: operands are rescaled to the larger scale. -/
def decSub (a b : Dec) : Dec :=
  let s := max a.s b.s
  ⟨a.m * 10 ^ (s - a.s) - b.m * 10 ^ (s - b.s), s⟩

/-- Decimal multiplication: mantissas multiply, scales add. -/
def decMul (a b : Dec) : Dec := ⟨a.m * b.m, a.s + b.s⟩

/-- Decimal division.  The quotient is produced at the smallest scale at
which it is exact, capped at 28 fractional digits (the crate's maximum
precision); past the cap the crate rounds, modelled here as truncation
(no claim reaches that branch, nor division by zero). -/
def decDiv (a b : Dec) : Dec :=
  let n : Int := a.m * 10 ^ b.s
  let d : Int := b.m * 10 ^ a.s
  match (List.range 29).find? (fun k => n * 10 ^ k % d == 0) with
  | some k => ⟨n * 10 ^ k / d, k⟩
  | none => ⟨n * 10 ^ 28 / d, 28⟩

/-- STEP 3 of TicketService.purchase (tickets/service.rs:144-147): the
discount percentage is subtracted from 100 and divided by 100, then
multiplied by unit price and quantity. -/
def totalPriceCalc (unitPrice : Dec) (quantity : Int) (discount : Dec) : Dec :=
  let quantityDec : Dec := ⟨quantity, 0⟩
  let discountMultiplier : Dec := decDiv (decSub ⟨100, 0⟩ discount) ⟨100, 0⟩
  decMul (decMul unitPrice quantityDec) discountMultiplier

/-! ## Promo codes (promos/repository.rs) -/

/-- A row of `promo_codes`.  `expired` models the SQL condition
`NOT (expires_at IS NULL OR expires_at > NOW())` at the time of the call. -/
structure PromoCode where
  id : Nat
  eventId : Nat
  code : String
  discountPercentage : Dec
  ticketLimit : Int
  usedCount : Int
  isActive : Bool
  expired : Bool
  deriving DecidableEq, Repr

/-- PromoRepository.validate (promos/repository.rs:174-189): a read-only
SELECT returning the promo row when the code exists for the event, is
active, is not expired, and its usage limit is not reached
(`ticket_limit = 0 OR used_count < ticket_limit`).  It performs no write. -/
def promoValidate (promos : List PromoCode) (eventId : Nat) (code : String) :
    Option PromoCode :=
  promos.find? (fun p =>
    decide (p.eventId = eventId) && decide (p.code = code) && p.isActive &&
    !p.expired && (decide (p.ticketLimit = 0) || decide (p.usedCount < p.ticketLimit)))

/-! ## Purchase (tickets/service.rs, tickets/repository.rs) -/

/-- The `events` row fields read by purchase (title/date/time/location are
response-only and omitted). -/
structure EventRow where
  id : Nat
  active : Bool
  price : Dec
  currency : String
  availableTickets : Int
  deriving DecidableEq, Repr

/-- The fields of an inserted `tickets` row that the purchase claims are
about.  The random human id, QR payload and payment reference strings are
produced from the RNG and clock and carry no constraint used by a claim,
so they are omitted from the row. -/
structure SoldTicket where
  quantity : Int
  unitPrice : Dec
  totalPrice : Dec
  discountApplied : Dec
  promoCodeId : Option Nat
  status : TicketStatus
  deriving DecidableEq, Repr

/-- PurchaseTicketRequest (tickets/dto.rs): the fields purchase inspects. -/
structure PurchaseRequest where
  eventId : Nat
  quantity : Int
  promoCode : Option String
  excitementRating : Option Int
  paymentProvider : String
  deriving DecidableEq, Repr

/-- The state a purchase touches: the target event row, the promo table and
the tickets sold so far. -/
structure PurchaseState where
  event : EventRow
  promos : List PromoCode
  sold : List SoldTicket
  deriving DecidableEq, Repr

/-- RULE 2 of purchase: `rating < 1 || rating > 10` when a rating is given. -/
def ratingInvalid : Option Int → Bool
  | some r => decide (r < 1) || decide (r > 10)
  | none => false

/-- Modelled from the spec: the database trigger on `tickets` insert is not
under src/ (only its effect is documented at tickets/repository.rs:55-56 and
handled at tickets/service.rs:176-183).  Per the spec's InventoryLedger
(atomic reserve-or-fail) and the repository comment, the trigger decrements
`available_tickets` by the inserted quantity and raises an error containing
"Not enough tickets" when the decrement would oversell. -/
def inventoryTrigger (available quantity : Int) : Except String Int :=
  if available < quantity then .error "Not enough tickets"
  else .ok (available - quantity)

/-- Tail of TicketService.purchase after promo resolution (tickets/service.rs
steps 3-7): price computation, ticket insert (status column is written as
the literal string "valid"), and the trigger's inventory decrement; a trigger
error containing "Not enough tickets" is mapped to `TicketsExhausted`. -/
def purchaseFinish (st : PurchaseState) (req : PurchaseRequest) (discount : Dec)
    (promoCodeId : Option Nat) : Except AppErr (PurchaseState × SoldTicket) :=
  let totalPrice := totalPriceCalc st.event.price req.quantity discount
  match inventoryTrigger st.event.availableTickets req.quantity with
  | .error e =>
    .error (if e = "Not enough tickets" then .TicketsExhausted else .Database e)
  | .ok newAvail =>
    let t : SoldTicket :=
      ⟨req.quantity, st.event.price, totalPrice, discount, promoCodeId, .valid⟩
    .ok ({ st with
            event := { st.event with availableTickets := newAvail },
            sold := st.sold ++ [t] }, t)

/-- TicketService.purchase (tickets/service.rs:70-212).  The SELECT ... FOR
UPDATE row lock serializes purchases per event; under that serialization the
operation is this state transformer.  Every error path rolls the transaction
back, so an `Except.error` result leaves the state unchanged. -/
def purchase (st : PurchaseState) (req : PurchaseRequest) :
    Except AppErr (PurchaseState × SoldTicket) :=
  if req.quantity < 1 ∨ req.quantity > 10 then
    .error (.Validation "Quantity must be between 1 and 10")
  else if ratingInvalid req.excitementRating then
    .error (.Validation "Excitement rating must be between 1 and 10")
  else if req.paymentProvider ≠ "paystack" ∧ req.paymentProvider ≠ "stripe" then
    .error (.Validation ("Payment provider must be " ++ apos ++ "paystack" ++
      apos ++ " or " ++ apos ++ "stripe" ++ apos))
  else if ¬ (st.event.id = req.eventId ∧ st.event.active) then
    .error (.NotFound "Event not found")
  else if st.event.availableTickets < req.quantity then
    .error .TicketsExhausted
  else
    match req.promoCode with
    | some code =>
      match promoValidate st.promos req.eventId code with
      | some p => purchaseFinish st req p.discountPercentage (some p.id)
      | none => .error (.PromoInvalid "Invalid or expired promo code")
    | none => purchaseFinish st req ⟨0, 0⟩ none

/-- The state after one purchase attempt (the error case keeps the rolled
back, unchanged state). -/
def purchaseEndState (st : PurchaseState) (req : PurchaseRequest) : PurchaseState :=
  match purchase st req with
  | .ok (st', _) => st'
  | .error _ => st

/-- A serialization of purchase requests against one event: the row lock
admits them one at a time, each seeing the state the previous one left. -/
def runPurchases (st : PurchaseState) :
    List PurchaseRequest → PurchaseState × List (Except AppErr SoldTicket)
  | [] => (st, [])
  | r :: rs =>
    match purchase st r with
    | .ok (st', t) =>
      let rec' := runPurchases st' rs
      (rec'.1, .ok t :: rec'.2)
    | .error e =>
      let rec' := runPurchases st rs
      (rec'.1, .error e :: rec'.2)

/-- The canonical single-ticket request of the no-oversell property:
quantity 1, no promo, no rating, a supported provider, event id 1. -/
def unitReq : PurchaseRequest := ⟨1, 1, none, none, "paystack"⟩

/-! ## Shared store for webhook / scanner / payment-init operations -/

/-- A `tickets` row joined with the `users` row (name, email), carrying the
columns these operations read and write. -/
structure TicketRow where
  id : Nat
  ticketId : String
  eventId : Nat
  userId : Nat
  userName : String
  email : String
  ticketType : String
  quantity : Int
  totalPrice : Dec
  currency : String
  status : TicketStatus
  paymentRef : Option String
  scannedAt : Option Nat
  scannedBy : Option Nat
  deriving DecidableEq, Repr

/-- PaystackWebhookData (payments/service.rs:68-74). -/
structure PaystackWebhookData where
  reference : String
  status : String
  amount : Int
  currency : String
  deriving DecidableEq, Repr

/-- PaystackWebhookPayload (payments/service.rs:61-65). -/
structure PaystackWebhookPayload where
  event : String
  data : PaystackWebhookData
  deriving DecidableEq, Repr

/-- A `payment_transactions` row. -/
structure PaymentTxn where
  ticketRowId : Nat
  userId : Nat
  provider : String
  providerRef : String
  amount : Dec
  currency : String
  status : TxnStatus
  providerResponse : Option PaystackWebhookData
  deriving DecidableEq, Repr

/-- A `scan_log` row. -/
structure ScanLogEntry where
  ticketRowId : Nat
  eventId : Nat
  scannedBy : Option Nat
  result : String
  deriving DecidableEq, Repr

/-- The persisted state these operations touch: tickets, payment
transactions, the scan audit log and the event's available counter. -/
structure Store where
  tickets : List TicketRow
  txns : List PaymentTxn
  scanLog : List ScanLogEntry
  available : Int
  deriving DecidableEq, Repr

/-! ## Webhook reconciliation (payments/service.rs, payments/handler.rs) -/

/-- Row effect of `UPDATE payment_transactions SET status = 'success',
provider_response = $2 WHERE provider_ref = $1`. -/
def applyWebhookToTxn (d : PaystackWebhookData) (t : PaymentTxn) : PaymentTxn :=
  if t.providerRef = d.reference then
    { t with status := .success, providerResponse := some d }
  else t

/-- Row effect of `UPDATE payment_transactions SET status = 'success'
WHERE provider_ref = $1` (the Stripe variant stores no provider response). -/
def applyStripeToTxn (reference : String) (t : PaymentTxn) : PaymentTxn :=
  if t.providerRef = reference then { t with status := .success } else t

/-- Row effect of `UPDATE tickets SET status = 'valid' WHERE payment_ref = $1
AND status != 'used'` (shared by both webhook handlers). -/
def applyWebhookToTicket (reference : String) (t : TicketRow) : TicketRow :=
  if t.paymentRef = some reference ∧ t.status ≠ .used then
    { t with status := .valid }
  else t

/-- PaymentService.handle_paystack_webhook (payments/service.rs:366-396):
any event other than "charge.success" is acknowledged with no effect; a
success event applies the two conditional updates above. -/
def handlePaystackWebhook (p : PaystackWebhookPayload) (st : Store) : Store :=
  if p.event ≠ "charge.success" then st
  else
    { st with
      txns := st.txns.map (applyWebhookToTxn p.data),
      tickets := st.tickets.map (applyWebhookToTicket p.data.reference) }

/-- PaymentService.handle_stripe_webhook (payments/service.rs:406-433). -/
def handleStripeWebhook (eventType : String) (reference : String) (st : Store) :
    Store :=
  if eventType ≠ "checkout.session.completed" then st
  else
    { st with
      txns := st.txns.map (applyStripeToTxn reference),
      tickets := st.tickets.map (applyWebhookToTicket reference) }

/-- PaymentService.verify_paystack_signature (payments/service.rs:337-351).
`hmacSha512Hex` is the keyed-hash primitive of the hmac/sha2 crates (hex
encoded), passed in as a parameter; an empty webhook secret is the degraded
development configuration in which verification is skipped. -/
def verifyPaystackSignature (hmacSha512Hex : String → List Nat → String)
    (secret : String) (body : List Nat) (signature : String) : Bool :=
  if secret = "" then true
  else hmacSha512Hex secret body == signature

/-- paystack_webhook route (payments/handler.rs:98-123): a missing signature
header becomes the empty string; signature failure is `Unauthorized`; a
payload serde cannot parse is a `Validation` error; otherwise the service
handler runs.  `parse` is the serde deserializer over the raw bytes. -/
def paystackWebhookRoute (hmacSha512Hex : String → List Nat → String)
    (secret : String) (parse : List Nat → Option PaystackWebhookPayload)
    (st : Store) (body : List Nat) (sigHeader : Option String) :
    Except AppErr Store :=
  let signature := sigHeader.getD ""
  if ¬ verifyPaystackSignature hmacSha512Hex secret body signature then
    .error .Unauthorized
  else
    match parse body with
    | none => .error (.Validation "Invalid webhook payload")
    | some payload => .ok (handlePaystackWebhook payload st)

/-- stripe_webhook route (payments/handler.rs:138-163): the signature header
is read but never verified; `parse` yields the event type and
client_reference_id (each defaulted to "" when absent) from the JSON body. -/
def stripeWebhookRoute (parse : List Nat → Option (String × String))
    (st : Store) (body : List Nat) (sigHeader : Option String) :
    Except AppErr Store :=
  let _signature := sigHeader.getD ""
  match parse body with
  | none => .error (.Validation "Invalid webhook payload")
  | some (eventType, reference) => .ok (handleStripeWebhook eventType reference st)

/-! ## Scanner (scanner/service.rs) -/

/-- ScanTicketInfo (scanner/service.rs:65-71); `scannedAt` keeps the raw
timestamp rather than its RFC3339 rendering. -/
structure ScanTicketInfo where
  ticketId : String
  userName : String
  ticketType : String
  quantity : Int
  scannedAt : Option Nat
  deriving DecidableEq, Repr

/-- ScanResult (scanner/service.rs:56-61). -/
structure ScanResult where
  result : String
  ticket : Option ScanTicketInfo
  message : Option String
  deriving DecidableEq, Repr

/-- The lookup `SELECT ... FROM tickets t JOIN users u ... WHERE
t.ticket_id = $1 AND t.event_id = $2` (fetch_optional). -/
def scanLookup (st : Store) (ticketId : String) (eventId : Nat) :
    Option TicketRow :=
  st.tickets.find? (fun t => decide (t.ticketId = ticketId ∧ t.eventId = eventId))

/-- ScannerService.validate_by_ticket_id (scanner/service.rs:218-280),
written with the source's if/else chain over the looked-up row. -/
def validateByTicketId (st : Store) (ticketId : String) (eventId : Nat) :
    ScanResult :=
  match scanLookup st ticketId eventId with
  | none =>
    ⟨"invalid", none, some "Ticket not found or does not belong to this event"⟩
  | some r =>
    if r.status = .used then
      ⟨"already_used",
        some ⟨r.ticketId, r.userName, r.ticketType, r.quantity, r.scannedAt⟩,
        none⟩
    else if r.status = .valid then
      ⟨"valid", some ⟨r.ticketId, r.userName, r.ticketType, r.quantity, none⟩, none⟩
    else
      ⟨"invalid", none,
        some ("Ticket status is " ++ apos ++ r.status.toDb ++ apos)⟩

/-- The spec's ScanValidator state machine (spec section 4.3), written from
the spec's four bullets as an exhaustive match over the classification
input, to be compared with the source's chain. -/
def specScanClassify : Option TicketRow → ScanResult
  | none =>
    ⟨"invalid", none, some "Ticket not found or does not belong to this event"⟩
  | some r =>
    match r.status with
    | .used =>
      ⟨"already_used",
        some ⟨r.ticketId, r.userName, r.ticketType, r.quantity, r.scannedAt⟩,
        none⟩
    | .valid =>
      ⟨"valid", some ⟨r.ticketId, r.userName, r.ticketType, r.quantity, none⟩, none⟩
    | s =>
      ⟨"invalid", none, some ("Ticket status is " ++ apos ++ s.toDb ++ apos)⟩

/-- Row effect of `UPDATE tickets SET status = 'used', scanned_at = NOW(),
scanned_by = $2 WHERE ticket_id = $1 AND status = 'valid'`. -/
def applyMarkUsed (ticketId : String) (scannedBy : Option Nat) (now : Nat)
    (t : TicketRow) : TicketRow :=
  if t.ticketId = ticketId ∧ t.status = .valid then
    { t with status := .used, scannedAt := some now, scannedBy := scannedBy }
  else t

/-- ScannerService.mark_used (scanner/service.rs:298-326): one conditional
update; zero affected rows surface `TicketAlreadyUsed`; then a best-effort
audit append (`let _ = ...`) whose own success is the external `auditOk`
flag; its failure does not fail the scan. -/
def markUsed (st : Store) (ticketId : String) (scannedBy : Option Nat)
    (now : Nat) (auditOk : Bool) : Except AppErr Store :=
  let rowsAffected :=
    st.tickets.countP (fun t => decide (t.ticketId = ticketId ∧ t.status = .valid))
  if rowsAffected = 0 then .error .TicketAlreadyUsed
  else
    let tickets := st.tickets.map (applyMarkUsed ticketId scannedBy now)
    let entries :=
      if auditOk then
        (tickets.filter (fun t => decide (t.ticketId = ticketId))).map
          (fun t => ScanLogEntry.mk t.id t.eventId scannedBy "valid")
      else []
    .ok { st with tickets := tickets, scanLog := st.scanLog ++ entries }

/-! ## Payment initialization (payments/service.rs:138-226) -/

/-- The character of a single decimal digit. -/
def digitChar (n : Nat) : Char := Char.ofNat (48 + n)

/-- Decimal digits of a natural number, most significant first. -/
def natChars (n : Nat) : List Char :=
  if n = 0 then [digitChar 0] else (Nat.digits 10 n).reverse.map digitChar

/-- Left-pad with zero digits to the given width. -/
def padZeros (cs : List Char) (width : Nat) : List Char :=
  List.replicate (width - cs.length) (digitChar 0) ++ cs

/-- `Decimal::to_string`: scale-many fractional digits after a decimal
point (none when the scale is zero), with a leading minus sign when
negative. -/
def decChars (d : Dec) : List Char :=
  let n := d.m.natAbs
  let sign : List Char := if d.m < 0 then [Char.ofNat 45] else []
  if d.s = 0 then sign ++ natChars n
  else
    sign ++ natChars (n / 10 ^ d.s) ++ [Char.ofNat 46] ++
      padZeros (natChars (n % 10 ^ d.s)) d.s

/-- Digit phase of `str::parse::<i64>`: after the optional sign there is at
least one character, all characters are digits, and the signed value lies
within the i64 range. -/
def parseI64Digits (neg : Bool) (ds : List Char) : Option Int :=
  if ds.isEmpty then none
  else if ds.all (fun ch => ch.isDigit) then
    let n : Nat := ds.foldl (fun a ch => a * 10 + (ch.toNat - 48)) 0
    let v : Int := if neg then -(n : Int) else (n : Int)
    if -(2 ^ 63) ≤ v ∧ v ≤ 2 ^ 63 - 1 then some v else none
  else none

/-- `str::parse::<i64>`: an optional sign followed by at least one digit,
all characters digits, value within the i64 range; anything else (in
particular a decimal point) fails. -/
def parseI64Chars (cs : List Char) : Option Int :=
  match cs with
  | [] => none
  | c :: rest =>
    if c = Char.ofNat 45 ∨ c = Char.ofNat 43 then
      parseI64Digits (decide (c = Char.ofNat 45)) rest
    else parseI64Digits false (c :: rest)

/-- Lines 170/198 of payments/service.rs: the amount in the smallest
currency unit, `(total_price * Decimal::from(100)).to_string()
.parse::<i64>().unwrap_or(0)`. -/
def amountSmallestUnit (totalPrice : Dec) : Int :=
  (parseI64Chars (decChars (decMul totalPrice ⟨100, 0⟩))).getD 0

/-- InitializePaymentRequest (payments/service.rs:44-49). -/
structure InitPaymentRequest where
  ticketId : Nat
  provider : String
  callbackUrl : String
  deriving DecidableEq, Repr

/-- PaymentInitResponse (payments/service.rs:52-58). -/
structure PayInitResponse where
  provider : String
  authorizationUrl : Option String
  checkoutUrl : Option String
  reference : String
  deriving DecidableEq, Repr

/-- `INSERT INTO payment_transactions ... ON CONFLICT (provider_ref) DO
NOTHING`. -/
def insertTxnOnConflict (st : Store) (txn : PaymentTxn) : Store :=
  if st.txns.any (fun t => decide (t.providerRef = txn.providerRef)) then st
  else { st with txns := st.txns ++ [txn] }

/-- PaymentService's payment initialization (payments/service.rs:138-226).
`providerCall` abstracts init_paystack / init_stripe (including the
development no-secret mock): it is handed the computed smallest-unit amount
and yields the redirect URL or the provider failure already rendered as a
`PaymentFailed` message.  `freshRef` is the reference derived from clock and
RNG, used only when the ticket carries none.  On provider failure the error
propagates before any write: no transaction row is inserted, the ticket
row is untouched and no inventory is released. -/
def initializePayment (providerCall : Int → Except String String)
    (freshRef : String) (st : Store) (userId : Nat) (req : InitPaymentRequest) :
    Except AppErr (Store × PayInitResponse) :=
  match st.tickets.find? (fun t => decide (t.id = req.ticketId ∧ t.userId = userId)) with
  | none => .error (.NotFound "Ticket not found")
  | some ticket =>
    let reference := ticket.paymentRef.getD freshRef
    if req.provider = "paystack" then
      let amountKobo := amountSmallestUnit ticket.totalPrice
      match providerCall amountKobo with
      | .error e => .error (.PaymentFailed e)
      | .ok url =>
        let st' := insertTxnOnConflict st
          ⟨req.ticketId, userId, "paystack", reference, ticket.totalPrice,
            ticket.currency, .pending, none⟩
        .ok (st', ⟨"paystack", some url, none, reference⟩)
    else if req.provider = "stripe" then
      let amountCents := amountSmallestUnit ticket.totalPrice
      match providerCall amountCents with
      | .error e => .error (.PaymentFailed e)
      | .ok url =>
        let st' := insertTxnOnConflict st
          ⟨req.ticketId, userId, "stripe", reference, ticket.totalPrice,
            ticket.currency, .pending, none⟩
        .ok (st', ⟨"stripe", none, some url, reference⟩)
    else
      .error (.Validation ("Invalid payment provider. Use " ++ apos ++
        "paystack" ++ apos ++ " or " ++ apos ++ "stripe" ++ apos))

/-- The store after a payment-initialization attempt (an error result keeps
the old store: the handler returns the error with no further statement). -/
def initEndState (providerCall : Int → Except String String) (freshRef : String)
    (st : Store) (userId : Nat) (req : InitPaymentRequest) : Store :=
  match initializePayment providerCall freshRef st userId req with
  | .ok (st', _) => st'
  | .error _ => st

/-- Decidable equality of operation results. -/
instance {ε α : Type} [DecidableEq ε] [DecidableEq α] :
    DecidableEq (Except ε α) := fun x y =>
  match x, y with
  | .error a, .error b =>
    if h : a = b then isTrue (by rw [h])
    else isFalse (by intro hh; injection hh; contradiction)
  | .ok a, .ok b =>
    if h : a = b then isTrue (by rw [h])
    else isFalse (by intro hh; injection hh; contradiction)
  | .error _, .ok _ => isFalse (fun hh => Except.noConfusion hh)
  | .ok _, .error _ => isFalse (fun hh => Except.noConfusion hh)

/-! ## Lemmas: decimal values -/

theorem decMul_val (a b : Dec) : (decMul a b).val = a.val * b.val := by
  simp only [decMul, Dec.val]
  push_cast
  rw [pow_add]
  ring

theorem rescale_val (m : Int) (s s' : Nat) (h : s ≤ s') :
    (m : ℚ) * 10 ^ (s' - s) / 10 ^ s' = (m : ℚ) / 10 ^ s := by
  have hs : s' - s + s = s' := by omega
  rw [div_eq_div_iff (by positivity) (by positivity), mul_assoc, ← pow_add, hs]

theorem decSub_val (a b : Dec) : (decSub a b).val = a.val - b.val := by
  simp only [decSub, Dec.val]
  push_cast
  rw [sub_div, rescale_val a.m a.s (max a.s b.s) (le_max_left _ _),
    rescale_val b.m b.s (max a.s b.s) (le_max_right _ _)]

theorem decDiv_val_exact (a b : Dec) (hb : b.m ≠ 0)
    (h : ∃ k, k < 29 ∧ b.m * 10 ^ a.s ∣ a.m * 10 ^ b.s * 10 ^ k) :
    (decDiv a b).val = a.val / b.val := by
  obtain ⟨k, hk, hdvd⟩ := h
  have hsome : ((List.range 29).find?
      (fun k => a.m * 10 ^ b.s * 10 ^ k % (b.m * 10 ^ a.s) == 0)).isSome := by
    rw [List.find?_isSome]
    refine ⟨k, List.mem_range.mpr hk, ?_⟩
    simpa using Int.emod_eq_zero_of_dvd hdvd
  obtain ⟨k₀, hfind⟩ := Option.isSome_iff_exists.mp hsome
  have hdvd₀ : b.m * 10 ^ a.s ∣ a.m * 10 ^ b.s * 10 ^ k₀ := by
    have hp := List.find?_some hfind
    exact Int.dvd_of_emod_eq_zero (by simpa using hp)
  have hbq : (b.m : ℚ) ≠ 0 := Int.cast_ne_zero.mpr hb
  simp only [decDiv, Dec.val, hfind]
  rw [Int.cast_div_charZero hdvd₀]
  push_cast
  field_simp
  ring

/-- C7: for every purchase, totalPrice is computed as
unitPrice × quantity × (100 − discountPct) / 100 in exact decimal
arithmetic (the rational value of the computed decimal is exactly that of
the formula, for any discount of scale at most 26, which covers every
promo percentage the quotient of which fits the crate's 28-digit cap);
for unitPrice = 100.00, quantity = 2, discountPct = 20 the result is
exactly 160.00, and arbitrarily many repeated computations yield the
identical decimal. -/
theorem C7_pricing_exact_decimal (unitPrice : Dec) (quantity : Int)
    (discount : Dec) (hs : discount.s ≤ 26) :
    (totalPriceCalc unitPrice quantity discount).val =
      unitPrice.val * quantity * ((100 - discount.val) / 100) ∧
    (totalPriceCalc ⟨10000, 2⟩ 2 ⟨20, 0⟩).val = 160 ∧
    ∀ n : Nat, List.replicate n (totalPriceCalc ⟨10000, 2⟩ 2 ⟨20, 0⟩) =
      List.replicate n (⟨160000, 3⟩ : Dec) := by
  refine ⟨?_, ?_, ?_⟩
  · have hmain : (totalPriceCalc unitPrice quantity discount).val =
        unitPrice.val * (⟨quantity, 0⟩ : Dec).val *
          (((⟨100, 0⟩ : Dec).val - discount.val) / (⟨100, 0⟩ : Dec).val) := by
      unfold totalPriceCalc
      rw [decMul_val, decMul_val,
        decDiv_val_exact _ _ (by norm_num)
          ⟨(decSub ⟨100, 0⟩ discount).s + 2,
            by simp only [decSub]; omega,
            ⟨(decSub ⟨100, 0⟩ discount).m, by ring⟩⟩,
        decSub_val]
    rw [hmain]
    simp [Dec.val]
  · rw [show totalPriceCalc ⟨10000, 2⟩ 2 ⟨20, 0⟩ = (⟨160000, 3⟩ : Dec) from by decide]
    norm_num [Dec.val]
  · intro n
    rw [show totalPriceCalc ⟨10000, 2⟩ 2 ⟨20, 0⟩ = (⟨160000, 3⟩ : Dec) from by decide]

/-- Witness for C7 at unitPrice = 100.00, quantity = 2, discountPct = 20. -/
theorem C7_pricing_exact_decimal_witness :
    (totalPriceCalc ⟨10000, 2⟩ 2 ⟨20, 0⟩).val =
      (⟨10000, 2⟩ : Dec).val * ((2 : Int) : ℚ) *
        ((100 - (⟨20, 0⟩ : Dec).val) / 100) :=
  (C7_pricing_exact_decimal ⟨10000, 2⟩ 2 ⟨20, 0⟩ (by norm_num)).1

/-! ## Lemmas: purchase shape -/

theorem purchaseFinish_shape (st : PurchaseState) (req : PurchaseRequest)
    (discount : Dec) (pid : Option Nat) (st' : PurchaseState) (t : SoldTicket)
    (h : purchaseFinish st req discount pid = .ok (st', t)) :
    st' = { st with
            event := { st.event with
              availableTickets := st.event.availableTickets - req.quantity },
            sold := st.sold ++ [t] } ∧
    t = ⟨req.quantity, st.event.price,
          totalPriceCalc st.event.price req.quantity discount, discount, pid,
          .valid⟩ ∧
    req.quantity ≤ st.event.availableTickets := by
  unfold purchaseFinish inventoryTrigger at h
  by_cases hc : st.event.availableTickets < req.quantity
  · rw [if_pos hc] at h
    exact Except.noConfusion h
  · rw [if_neg hc] at h
    injection h with h
    injection h with h1 h2
    subst h1
    subst h2
    exact ⟨rfl, rfl, by omega⟩

theorem purchase_ok_shape (st : PurchaseState) (req : PurchaseRequest)
    (st' : PurchaseState) (t : SoldTicket) (hp : purchase st req = .ok (st', t)) :
    st'.promos = st.promos ∧
    st'.event = { st.event with
      availableTickets := st.event.availableTickets - req.quantity } ∧
    t.quantity = req.quantity ∧
    1 ≤ req.quantity ∧ req.quantity ≤ st.event.availableTickets := by
  unfold purchase at hp
  split at hp
  · exact Except.noConfusion hp
  next hq =>
  split at hp
  · exact Except.noConfusion hp
  split at hp
  · exact Except.noConfusion hp
  split at hp
  · exact Except.noConfusion hp
  split at hp
  · exact Except.noConfusion hp
  split at hp
  case _ code =>
    split at hp
    · next p hfound =>
      obtain ⟨h1, h2, h3⟩ := purchaseFinish_shape st req _ _ st' t hp
      subst h1
      exact ⟨rfl, rfl, by rw [h2], by omega, h3⟩
    · exact Except.noConfusion hp
  · obtain ⟨h1, h2, h3⟩ := purchaseFinish_shape st req _ _ st' t hp
    subst h1
    exact ⟨rfl, rfl, by rw [h2], by omega, h3⟩

theorem purchase_exhausted (st : PurchaseState) (req : PurchaseRequest)
    (h1 : 1 ≤ req.quantity) (h2 : req.quantity ≤ 10)
    (h3 : ratingInvalid req.excitementRating = false)
    (h4 : req.paymentProvider = "paystack" ∨ req.paymentProvider = "stripe")
    (h5 : st.event.id = req.eventId) (h6 : st.event.active = true)
    (h7 : st.event.availableTickets < req.quantity) :
    purchase st req = .error .TicketsExhausted := by
  unfold purchase
  rw [if_neg (by omega), if_neg (by simp [h3]),
    if_neg (by rcases h4 with h | h <;> simp [h]),
    if_neg (not_not_intro ⟨h5, h6⟩), if_pos h7]

theorem purchase_ok_of (st : PurchaseState) (req : PurchaseRequest)
    (h1 : ¬(req.quantity < 1 ∨ req.quantity > 10))
    (h3 : ratingInvalid req.excitementRating = false)
    (h4 : req.paymentProvider = "paystack" ∨ req.paymentProvider = "stripe")
    (h5 : st.event.id = req.eventId) (h6 : st.event.active = true)
    (h7 : ¬(st.event.availableTickets < req.quantity))
    (h8 : req.promoCode = none) :
    purchase st req =
      .ok ({ st with
              event := { st.event with
                availableTickets := st.event.availableTickets - req.quantity },
              sold := st.sold ++
                [⟨req.quantity, st.event.price,
                  totalPriceCalc st.event.price req.quantity ⟨0, 0⟩,
                  ⟨0, 0⟩, none, .valid⟩] },
            ⟨req.quantity, st.event.price,
              totalPriceCalc st.event.price req.quantity ⟨0, 0⟩,
              ⟨0, 0⟩, none, .valid⟩) := by
  unfold purchase
  rw [if_neg h1, if_neg (by simp [h3]),
    if_neg (by rcases h4 with h | h <;> simp [h]),
    if_neg (not_not_intro ⟨h5, h6⟩), if_neg h7, h8]
  unfold purchaseFinish inventoryTrigger
  rw [if_neg h7]

theorem runPurchases_nil (st : PurchaseState) : runPurchases st [] = (st, []) :=
  rfl

theorem runPurchases_cons_ok (st st' : PurchaseState) (t : SoldTicket)
    (r : PurchaseRequest) (rs : List PurchaseRequest)
    (h : purchase st r = .ok (st', t)) :
    runPurchases st (r :: rs) =
      ((runPurchases st' rs).1, .ok t :: (runPurchases st' rs).2) := by
  conv_lhs => unfold runPurchases
  rw [h]

theorem runPurchases_cons_error (st : PurchaseState) (e : AppErr)
    (r : PurchaseRequest) (rs : List PurchaseRequest)
    (h : purchase st r = .error e) :
    runPurchases st (r :: rs) =
      ((runPurchases st rs).1, .error e :: (runPurchases st rs).2) := by
  conv_lhs => unfold runPurchases
  rw [h]

theorem runPurchases_unit_counts (n : Nat) :
    ∀ st : PurchaseState, st.event.id = 1 → st.event.active = true →
    ∀ c : Nat, st.event.availableTickets = (c : Int) →
    (runPurchases st (List.replicate n unitReq)).2.countP
        (fun r => r.isOk) = min c n ∧
    (runPurchases st (List.replicate n unitReq)).2.countP
        (fun r => decide (r = .error .TicketsExhausted)) = n - min c n ∧
    (runPurchases st (List.replicate n unitReq)).1.event.availableTickets =
      (c : Int) - ((min c n : Nat) : Int) := by
  induction n with
  | zero =>
    intro st hid hact c hav
    simp [runPurchases, hav]
  | succ n ih =>
    intro st hid hact c hav
    have hq : unitReq.quantity = (1 : Int) := rfl
    rw [List.replicate_succ]
    by_cases hc : c = 0
    · subst hc
      have hex : purchase st unitReq = .error .TicketsExhausted :=
        purchase_exhausted st unitReq (by norm_num [unitReq])
          (by norm_num [unitReq]) rfl (Or.inl rfl) (by rw [hid]; rfl) hact
          (by rw [hav, hq]; norm_num)
      rw [runPurchases_cons_error st _ unitReq _ hex]
      obtain ⟨i1, i2, i3⟩ := ih st hid hact 0 hav
      simp only [List.countP_cons]
      refine ⟨?_, ?_, ?_⟩
      · rw [i1]
        simp [Except.isOk, Except.toBool]
      · rw [i2]
        simp
      · rw [i3]
        simp
    · have hok := purchase_ok_of st unitReq (by norm_num [unitReq]) rfl
        (Or.inl rfl) (by rw [hid]; rfl) hact (by rw [hav, hq]; omega) rfl
      rw [runPurchases_cons_ok st _ _ unitReq _ hok]
      obtain ⟨i1, i2, i3⟩ := ih
        { st with
          event := { st.event with
            availableTickets := st.event.availableTickets - unitReq.quantity },
          sold := st.sold ++
            [⟨unitReq.quantity, st.event.price,
              totalPriceCalc st.event.price unitReq.quantity ⟨0, 0⟩,
              ⟨0, 0⟩, none, .valid⟩] }
        hid hact (c - 1) (by simp only; rw [hav, hq]; omega)
      have hmin : c ⊓ (n + 1) = (c - 1) ⊓ n + 1 := by omega
      simp only [List.countP_cons]
      refine ⟨?_, ?_, ?_⟩
      · rw [i1, hmin]
        simp [Except.isOk, Except.toBool]
      · rw [i2, hmin]
        rw [if_neg (by simp)]
        generalize (c - 1) ⊓ n = m
        omega
      · rw [i3, hmin]
        generalize (c - 1) ⊓ n = m
        omega

/-- C1: (a) a purchase request passing validation against an event with
fewer available tickets than the requested quantity fails with
`TicketsExhausted` (the spec's InventoryExhausted) and leaves the event
state unchanged; (b) across any serialization of purchase operations on
one event, the available count never becomes negative; (c) for capacity C
and N single-ticket purchases with N > C, exactly C succeed, N − C fail
with `TicketsExhausted`, and the available count ends at 0. -/
theorem C1_no_oversell :
    (∀ st req, 1 ≤ req.quantity → req.quantity ≤ 10 →
      ratingInvalid req.excitementRating = false →
      (req.paymentProvider = "paystack" ∨ req.paymentProvider = "stripe") →
      st.event.id = req.eventId → st.event.active = true →
      st.event.availableTickets < req.quantity →
      runPurchases st [req] = (st, [.error .TicketsExhausted])) ∧
    (∀ st rs, 0 ≤ st.event.availableTickets →
      0 ≤ (runPurchases st rs).1.event.availableTickets) ∧
    (∀ c n : Nat, ∀ st, st.event.id = 1 → st.event.active = true →
      st.event.availableTickets = (c : Int) → c < n →
      (runPurchases st (List.replicate n unitReq)).2.countP
          (fun r => r.isOk) = c ∧
      (runPurchases st (List.replicate n unitReq)).2.countP
          (fun r => decide (r = .error .TicketsExhausted)) = n - c ∧
      (runPurchases st (List.replicate n unitReq)).1.event.availableTickets
        = 0) := by
  refine ⟨?_, ?_, ?_⟩
  · intro st req h1 h2 h3 h4 h5 h6 h7
    have hex := purchase_exhausted st req h1 h2 h3 h4 h5 h6 h7
    rw [runPurchases_cons_error st _ req [] hex]
    rfl
  · intro st rs
    induction rs generalizing st with
    | nil => intro h; simpa [runPurchases_nil] using h
    | cons r rs ih =>
      intro h
      cases hp : purchase st r with
      | ok p =>
        obtain ⟨st', t⟩ := p
        have hs := purchase_ok_shape st r st' t hp
        rw [runPurchases_cons_ok st st' t r rs hp]
        apply ih
        rw [hs.2.1]
        simp only
        omega
      | error e =>
        rw [runPurchases_cons_error st e r rs hp]
        exact ih st h
  · intro c n st hid hact hav hcn
    obtain ⟨i1, i2, i3⟩ := runPurchases_unit_counts n st hid hact c hav
    refine ⟨by rw [i1]; omega, by rw [i2]; omega, by rw [i3]; omega⟩

/-- Witness for C1: capacity 2 with 3 single-ticket requests, and an
insufficient-inventory request against 0 remaining tickets. -/
theorem C1_no_oversell_witness :
    runPurchases ⟨⟨1, true, ⟨5000, 2⟩, "NGN", 0⟩, [], []⟩ [unitReq] =
      (⟨⟨1, true, ⟨5000, 2⟩, "NGN", 0⟩, [], []⟩,
        [.error .TicketsExhausted]) ∧
    (runPurchases ⟨⟨1, true, ⟨5000, 2⟩, "NGN", 2⟩, [], []⟩
        (List.replicate 3 unitReq)).2.countP (fun r => r.isOk) = 2 ∧
    (runPurchases ⟨⟨1, true, ⟨5000, 2⟩, "NGN", 2⟩, [], []⟩
        (List.replicate 3 unitReq)).2.countP
        (fun r => decide (r = .error .TicketsExhausted)) = 1 ∧
    (runPurchases ⟨⟨1, true, ⟨5000, 2⟩, "NGN", 2⟩, [], []⟩
        (List.replicate 3 unitReq)).1.event.availableTickets = 0 := by
  refine ⟨?_, ?_⟩
  · exact C1_no_oversell.1 ⟨⟨1, true, ⟨5000, 2⟩, "NGN", 0⟩, [], []⟩ unitReq
      (by norm_num [unitReq]) (by norm_num [unitReq]) rfl (Or.inl rfl) rfl rfl
      (by norm_num [unitReq])
  · have h := C1_no_oversell.2.2 2 3 ⟨⟨1, true, ⟨5000, 2⟩, "NGN", 2⟩, [], []⟩
      rfl rfl (by norm_num) (by norm_num)
    exact ⟨h.1, h.2.1, h.2.2⟩

/-- C2 counterexample: a promo with usageLimit = 1 (`ticket_limit = 1`,
`used_count = 0`) admits two consecutive purchases carrying its code —
`PromoRepository.validate` is a read-only SELECT and no purchase path
increments `used_count` — refuting that at most one purchase using the
code can succeed and that its usedCount is incremented in the purchase
critical section. -/
theorem C2_promo_atomic_increment_counterexample :
    (purchase
        ⟨⟨1, true, ⟨10000, 2⟩, "NGN", 10⟩,
          [⟨7, 1, "SAVE20", ⟨20, 0⟩, 1, 0, true, false⟩], []⟩
        ⟨1, 1, some "SAVE20", none, "paystack"⟩).isOk = true ∧
    (purchase
        (purchaseEndState
          ⟨⟨1, true, ⟨10000, 2⟩, "NGN", 10⟩,
            [⟨7, 1, "SAVE20", ⟨20, 0⟩, 1, 0, true, false⟩], []⟩
          ⟨1, 1, some "SAVE20", none, "paystack"⟩)
        ⟨1, 1, some "SAVE20", none, "paystack"⟩).isOk = true ∧
    (purchaseEndState
        ⟨⟨1, true, ⟨10000, 2⟩, "NGN", 10⟩,
          [⟨7, 1, "SAVE20", ⟨20, 0⟩, 1, 0, true, false⟩], []⟩
        ⟨1, 1, some "SAVE20", none, "paystack"⟩).promos =
      [⟨7, 1, "SAVE20", ⟨20, 0⟩, 1, 0, true, false⟩] := by
  decide

/-- C2 amended: promo validation during purchase is a read-only SELECT
(on a separate connection) whose guard `used_count < ticket_limit` (unless
`ticket_limit = 0`) holds only at read time; no purchase path increments
`used_count`, so the promo table is unchanged by every purchase outcome and
a promo with usageLimit = 1 does not reject a second redemption. -/
theorem C2_promo_validation_readonly :
    (∀ st req, (purchaseEndState st req).promos = st.promos) ∧
    (∀ promos eventId code p, promoValidate promos eventId code = some p →
      p.eventId = eventId ∧ p.code = code ∧ p.isActive = true ∧
      p.expired = false ∧ (p.ticketLimit = 0 ∨ p.usedCount < p.ticketLimit)) := by
  constructor
  · intro st req
    unfold purchaseEndState
    cases hp : purchase st req with
    | error e => rfl
    | ok p =>
      obtain ⟨st', t⟩ := p
      exact (purchase_ok_shape st req st' t hp).1
  · intro promos eventId code p h
    have hp := List.find?_some h
    simp only [Bool.and_eq_true, decide_eq_true_eq, Bool.not_eq_true',
      Bool.or_eq_true] at hp
    exact ⟨hp.1.1.1.1, hp.1.1.1.2, hp.1.1.2, hp.1.2, hp.2⟩

/-- Witness for C2 amended at a concrete store and promo. -/
theorem C2_promo_validation_readonly_witness :
    (purchaseEndState
        ⟨⟨1, true, ⟨10000, 2⟩, "NGN", 10⟩,
          [⟨7, 1, "SAVE20", ⟨20, 0⟩, 1, 0, true, false⟩], []⟩
        ⟨1, 2, some "SAVE20", none, "stripe"⟩).promos =
      [⟨7, 1, "SAVE20", ⟨20, 0⟩, 1, 0, true, false⟩] ∧
    ((⟨7, 1, "SAVE20", ⟨20, 0⟩, 1, 0, true, false⟩ : PromoCode).ticketLimit = 0 ∨
      (⟨7, 1, "SAVE20", ⟨20, 0⟩, 1, 0, true, false⟩ : PromoCode).usedCount <
        (⟨7, 1, "SAVE20", ⟨20, 0⟩, 1, 0, true, false⟩ : PromoCode).ticketLimit) :=
  ⟨C2_promo_validation_readonly.1
      ⟨⟨1, true, ⟨10000, 2⟩, "NGN", 10⟩,
        [⟨7, 1, "SAVE20", ⟨20, 0⟩, 1, 0, true, false⟩], []⟩
      ⟨1, 2, some "SAVE20", none, "stripe"⟩,
    (C2_promo_validation_readonly.2
      [⟨7, 1, "SAVE20", ⟨20, 0⟩, 1, 0, true, false⟩] 1 "SAVE20"
      ⟨7, 1, "SAVE20", ⟨20, 0⟩, 1, 0, true, false⟩ (by decide)).2.2.2.2⟩

/-! ## Lemmas: webhook reconciliation -/

theorem applyWebhookToTxn_providerRef (d : PaystackWebhookData) (t : PaymentTxn) :
    (applyWebhookToTxn d t).providerRef = t.providerRef := by
  unfold applyWebhookToTxn
  split <;> rfl

theorem applyWebhookToTxn_idem (d : PaystackWebhookData) (t : PaymentTxn) :
    applyWebhookToTxn d (applyWebhookToTxn d t) = applyWebhookToTxn d t := by
  by_cases h : t.providerRef = d.reference <;> simp [applyWebhookToTxn, h]

theorem applyWebhookToTicket_idem (reference : String) (t : TicketRow) :
    applyWebhookToTicket reference (applyWebhookToTicket reference t) =
      applyWebhookToTicket reference t := by
  by_cases h : t.paymentRef = some reference ∧ t.status ≠ TicketStatus.used <;>
    simp [applyWebhookToTicket, h]

theorem handlePaystackWebhook_idem (p : PaystackWebhookPayload) (st : Store) :
    handlePaystackWebhook p (handlePaystackWebhook p st) =
      handlePaystackWebhook p st := by
  unfold handlePaystackWebhook
  by_cases h : p.event ≠ "charge.success"
  · rw [if_pos h, if_pos h]
  · rw [if_neg h, if_neg h]
    simp only [List.map_map]
    rw [Store.mk.injEq]
    exact ⟨List.map_congr_left
        (fun x _ => applyWebhookToTicket_idem p.data.reference x),
      List.map_congr_left (fun x _ => applyWebhookToTxn_idem p.data x), rfl, rfl⟩

/-- C3: the webhook handler is idempotent: any event type other than
"charge.success" is acknowledged with no state change; delivering the same
success payload n ≥ 1 times leaves the store exactly as one delivery does;
and the handler never inserts a PaymentTransaction row, so the number of
rows per providerRef is unchanged (no duplicates). -/
theorem C3_webhook_idempotent :
    (∀ p st, p.event ≠ "charge.success" → handlePaystackWebhook p st = st) ∧
    (∀ p st (n : Nat),
      (handlePaystackWebhook p)^[n + 1] st = handlePaystackWebhook p st) ∧
    (∀ p st, (handlePaystackWebhook p st).txns.length = st.txns.length ∧
      ∀ ref, (handlePaystackWebhook p st).txns.countP
          (fun t => decide (t.providerRef = ref)) =
        st.txns.countP (fun t => decide (t.providerRef = ref))) := by
  refine ⟨?_, ?_, ?_⟩
  · intro p st h
    unfold handlePaystackWebhook
    rw [if_pos h]
  · intro p st n
    induction n with
    | zero => rfl
    | succ n ih =>
      rw [Function.iterate_succ_apply', ih, handlePaystackWebhook_idem]
  · intro p st
    unfold handlePaystackWebhook
    by_cases h : p.event ≠ "charge.success"
    · rw [if_pos h]
      exact ⟨rfl, fun ref => rfl⟩
    · rw [if_neg h]
      refine ⟨by simp, ?_⟩
      intro ref
      show (st.txns.map (applyWebhookToTxn p.data)).countP _ = _
      rw [List.countP_map]
      exact List.countP_congr
        (fun t _ => by simp [Function.comp, applyWebhookToTxn_providerRef])

/-- Witness for C3 at a concrete payload and store: an ignored event type,
double delivery of a success payload, and providerRef row counts. -/
theorem C3_webhook_idempotent_witness :
    handlePaystackWebhook ⟨"charge.refund", ⟨"R1", "success", 16000, "NGN"⟩⟩
        ⟨[⟨1, "BUKR-0001-a", 1, 2, "Ada", "ada@x.com", "General Admission", 1,
            ⟨16000, 2⟩, "NGN", .pending, some "R1", none, none⟩],
          [⟨1, 2, "paystack", "R1", ⟨16000, 2⟩, "NGN", .pending, none⟩], [], 4⟩ =
      ⟨[⟨1, "BUKR-0001-a", 1, 2, "Ada", "ada@x.com", "General Admission", 1,
          ⟨16000, 2⟩, "NGN", .pending, some "R1", none, none⟩],
        [⟨1, 2, "paystack", "R1", ⟨16000, 2⟩, "NGN", .pending, none⟩], [], 4⟩ ∧
    (handlePaystackWebhook ⟨"charge.success", ⟨"R1", "success", 16000, "NGN"⟩⟩)^[2]
        ⟨[⟨1, "BUKR-0001-a", 1, 2, "Ada", "ada@x.com", "General Admission", 1,
            ⟨16000, 2⟩, "NGN", .pending, some "R1", none, none⟩],
          [⟨1, 2, "paystack", "R1", ⟨16000, 2⟩, "NGN", .pending, none⟩], [], 4⟩ =
      handlePaystackWebhook ⟨"charge.success", ⟨"R1", "success", 16000, "NGN"⟩⟩
        ⟨[⟨1, "BUKR-0001-a", 1, 2, "Ada", "ada@x.com", "General Admission", 1,
            ⟨16000, 2⟩, "NGN", .pending, some "R1", none, none⟩],
          [⟨1, 2, "paystack", "R1", ⟨16000, 2⟩, "NGN", .pending, none⟩], [], 4⟩ ∧
    (handlePaystackWebhook ⟨"charge.success", ⟨"R1", "success", 16000, "NGN"⟩⟩
        ⟨[⟨1, "BUKR-0001-a", 1, 2, "Ada", "ada@x.com", "General Admission", 1,
            ⟨16000, 2⟩, "NGN", .pending, some "R1", none, none⟩],
          [⟨1, 2, "paystack", "R1", ⟨16000, 2⟩, "NGN", .pending, none⟩], [], 4⟩).txns.countP
        (fun t => decide (t.providerRef = "R1")) =
      ([⟨1, 2, "paystack", "R1", ⟨16000, 2⟩, "NGN", TxnStatus.pending, none⟩] :
        List PaymentTxn).countP (fun t => decide (t.providerRef = "R1")) :=
  ⟨C3_webhook_idempotent.1 ⟨"charge.refund", ⟨"R1", "success", 16000, "NGN"⟩⟩ _
      (by decide),
    C3_webhook_idempotent.2.1 ⟨"charge.success", ⟨"R1", "success", 16000, "NGN"⟩⟩ _ 1,
    (C3_webhook_idempotent.2.2 ⟨"charge.success", ⟨"R1", "success", 16000, "NGN"⟩⟩
      ⟨[⟨1, "BUKR-0001-a", 1, 2, "Ada", "ada@x.com", "General Admission", 1,
          ⟨16000, 2⟩, "NGN", .pending, some "R1", none, none⟩],
        [⟨1, 2, "paystack", "R1", ⟨16000, 2⟩, "NGN", .pending, none⟩], [], 4⟩).2 "R1"⟩

/-- C4 counterexample: the success-webhook ticket update is guarded only by
`status != 'used'`, so a Cancelled ticket whose payment_ref matches is moved
to Valid — refuting that a Cancelled or Failed ticket is never moved to
Valid (transitions are not forward-only). -/
theorem C4_forward_only_counterexample :
    (handlePaystackWebhook ⟨"charge.success", ⟨"R1", "success", 16000, "NGN"⟩⟩
        ⟨[⟨1, "BUKR-0001-a", 1, 2, "Ada", "ada@x.com", "General Admission", 1,
            ⟨16000, 2⟩, "NGN", .cancelled, some "R1", none, none⟩],
          [], [], 4⟩).tickets.map (fun t => t.status) = [TicketStatus.valid] := by
  decide

/-- C4 amended: Used is terminal — the webhook ticket update leaves a Used
ticket unchanged (a late success webhook never reverts it, and it stays in
the table unchanged), and the scan consume update only moves Valid tickets
(to Used) — but the webhook update sets every matching ticket whose status
is not Used, including Pending, Cancelled and Failed, to Valid, so
transitions are not forward-only from Cancelled/Failed. -/
theorem C4_used_terminal_but_webhook_revives :
    (∀ reference t, t.status = .used → applyWebhookToTicket reference t = t) ∧
    (∀ p st t, t ∈ st.tickets → t.status = .used →
      t ∈ (handlePaystackWebhook p st).tickets) ∧
    (∀ tid sb now t, (applyMarkUsed tid sb now t).status = .used →
      t.status = .valid ∨ t.status = .used) ∧
    (∀ tid sb now t, t.status ≠ .valid → applyMarkUsed tid sb now t = t) ∧
    (∀ reference t, t.paymentRef = some reference → t.status ≠ .used →
      (applyWebhookToTicket reference t).status = .valid) := by
  refine ⟨?_, ?_, ?_, ?_, ?_⟩
  · intro reference t h
    unfold applyWebhookToTicket
    rw [if_neg (fun hc => hc.2 h)]
  · intro p st t hmem h
    unfold handlePaystackWebhook
    by_cases he : p.event ≠ "charge.success"
    · rw [if_pos he]
      exact hmem
    · rw [if_neg he]
      show t ∈ st.tickets.map (applyWebhookToTicket p.data.reference)
      have ht : applyWebhookToTicket p.data.reference t = t := by
        unfold applyWebhookToTicket
        rw [if_neg (fun hc => hc.2 h)]
      exact ht ▸ List.mem_map_of_mem _ hmem
  · intro tid sb now t h
    unfold applyMarkUsed at h
    by_cases hc : t.ticketId = tid ∧ t.status = .valid
    · exact Or.inl hc.2
    · rw [if_neg hc] at h
      exact Or.inr h
  · intro tid sb now t h
    unfold applyMarkUsed
    rw [if_neg (fun hc => h hc.2)]
  · intro reference t h1 h2
    unfold applyWebhookToTicket
    rw [if_pos ⟨h1, h2⟩]

/-- Witness for C4 amended at concrete Used / Cancelled tickets. -/
theorem C4_used_terminal_but_webhook_revives_witness :
    applyWebhookToTicket "R1"
        ⟨1, "BUKR-0001-a", 1, 2, "Ada", "ada@x.com", "General Admission", 1,
          ⟨16000, 2⟩, "NGN", .used, some "R1", some 99, some 3⟩ =
      ⟨1, "BUKR-0001-a", 1, 2, "Ada", "ada@x.com", "General Admission", 1,
        ⟨16000, 2⟩, "NGN", .used, some "R1", some 99, some 3⟩ ∧
    ((⟨1, "BUKR-0001-a", 1, 2, "Ada", "ada@x.com", "General Admission", 1,
        ⟨16000, 2⟩, "NGN", .used, some "R1", some 99, some 3⟩ : TicketRow).status =
        .valid ∨
      (⟨1, "BUKR-0001-a", 1, 2, "Ada", "ada@x.com", "General Admission", 1,
        ⟨16000, 2⟩, "NGN", .used, some "R1", some 99, some 3⟩ : TicketRow).status =
        .used) ∧
    applyMarkUsed "BUKR-0001-a" (some 3) 77
        ⟨1, "BUKR-0001-a", 1, 2, "Ada", "ada@x.com", "General Admission", 1,
          ⟨16000, 2⟩, "NGN", .cancelled, some "R1", none, none⟩ =
      ⟨1, "BUKR-0001-a", 1, 2, "Ada", "ada@x.com", "General Admission", 1,
        ⟨16000, 2⟩, "NGN", .cancelled, some "R1", none, none⟩ ∧
    (applyWebhookToTicket "R1"
        ⟨1, "BUKR-0001-a", 1, 2, "Ada", "ada@x.com", "General Admission", 1,
          ⟨16000, 2⟩, "NGN", .cancelled, some "R1", none, none⟩).status = .valid :=
  ⟨C4_used_terminal_but_webhook_revives.1 "R1" _ rfl,
    C4_used_terminal_but_webhook_revives.2.2.1 "BUKR-0001-a" (some 3) 77
      ⟨1, "BUKR-0001-a", 1, 2, "Ada", "ada@x.com", "General Admission", 1,
        ⟨16000, 2⟩, "NGN", .used, some "R1", some 99, some 3⟩ (by decide),
    C4_used_terminal_but_webhook_revives.2.2.2.1 "BUKR-0001-a" (some 3) 77 _
      (by decide),
    C4_used_terminal_but_webhook_revives.2.2.2.2 "R1" _ rfl (by decide)⟩

/-! ## Lemmas: scanner -/

theorem applyMarkUsed_not_pred (tid : String) (sb : Option Nat) (now : Nat)
    (t : TicketRow) :
    ¬((applyMarkUsed tid sb now t).ticketId = tid ∧
      (applyMarkUsed tid sb now t).status = .valid) := by
  unfold applyMarkUsed
  by_cases h : t.ticketId = tid ∧ t.status = .valid
  · rw [if_pos h]
    rintro ⟨-, hst⟩
    exact TicketStatus.noConfusion hst
  · rw [if_neg h]
    exact h

theorem markUsed_mapped_count_zero (tid : String) (sb : Option Nat) (now : Nat)
    (l : List TicketRow) :
    (l.map (applyMarkUsed tid sb now)).countP
      (fun t => decide (t.ticketId = tid ∧ t.status = .valid)) = 0 := by
  rw [List.countP_eq_zero]
  intro u hu
  obtain ⟨t, ht, rfl⟩ := List.mem_map.mp hu
  simpa using applyMarkUsed_not_pred tid sb now t

/-- C5: mark_used is a single conditional update (set status = Used,
scannedAt = now, scannedBy = scanner, where status = Valid): (a) when no row
with the ticket id is Valid it surfaces `TicketAlreadyUsed` and no new store
is produced (the caller keeps the unchanged store); (b) when such a row
exists, the call succeeds, the tickets table is exactly the conditional
update's image, and a second mark_used on the result surfaces
`TicketAlreadyUsed` — so of two serialized calls exactly one succeeds;
(c) the audit-log append is best-effort: its failure changes neither the
success of the scan nor the resulting tickets table. -/
theorem C5_markUsed_exactly_once :
    (∀ st tid sb now audit,
      st.tickets.countP
          (fun t => decide (t.ticketId = tid ∧ t.status = .valid)) = 0 →
      markUsed st tid sb now audit = .error .TicketAlreadyUsed) ∧
    (∀ st tid sb sb₂ now now₂ audit audit₂ st',
      markUsed st tid sb now audit = .ok st' →
      st'.tickets = st.tickets.map (applyMarkUsed tid sb now) ∧
      markUsed st' tid sb₂ now₂ audit₂ = .error .TicketAlreadyUsed) ∧
    (∀ st tid sb now,
      (markUsed st tid sb now false).isOk = (markUsed st tid sb now true).isOk ∧
      ∀ st₁ st₂, markUsed st tid sb now false = .ok st₁ →
        markUsed st tid sb now true = .ok st₂ → st₁.tickets = st₂.tickets) := by
  refine ⟨?_, ?_, ?_⟩
  · intro st tid sb now audit h
    unfold markUsed
    rw [if_pos h]
  · intro st tid sb sb₂ now now₂ audit audit₂ st' hok
    unfold markUsed at hok
    by_cases h : st.tickets.countP
        (fun t => decide (t.ticketId = tid ∧ t.status = .valid)) = 0
    · rw [if_pos h] at hok
      exact Except.noConfusion hok
    · rw [if_neg h] at hok
      injection hok with hok
      constructor
      · rw [← hok]
      · unfold markUsed
        rw [if_pos (by rw [← hok]; exact markUsed_mapped_count_zero tid sb now st.tickets)]
  · intro st tid sb now
    unfold markUsed
    by_cases h : st.tickets.countP
        (fun t => decide (t.ticketId = tid ∧ t.status = .valid)) = 0
    · rw [if_pos h, if_pos h]
      exact ⟨rfl, fun st₁ st₂ h₁ => absurd h₁ (fun hh => Except.noConfusion hh)⟩
    · rw [if_neg h, if_neg h]
      refine ⟨rfl, ?_⟩
      intro st₁ st₂ h₁ h₂
      injection h₁ with h₁
      injection h₂ with h₂
      rw [← h₁, ← h₂]

/-- Witness for C5: a store with one Valid ticket; the first scan succeeds,
the second surfaces TicketAlreadyUsed, and an unknown id fails outright. -/
theorem C5_markUsed_exactly_once_witness :
    markUsed ⟨[⟨1, "BUKR-0001-a", 1, 2, "Ada", "ada@x.com", "General Admission",
          1, ⟨16000, 2⟩, "NGN", .pending, some "R1", none, none⟩], [], [], 4⟩
        "BUKR-0001-a" (some 3) 77 true = .error .TicketAlreadyUsed ∧
    (markUsed ⟨[⟨1, "BUKR-0001-a", 1, 2, "Ada", "ada@x.com", "General Admission",
          1, ⟨16000, 2⟩, "NGN", .valid, some "R1", none, none⟩], [], [], 4⟩
        "BUKR-0001-a" (some 3) 77 true).isOk = true ∧
    (∀ st', markUsed ⟨[⟨1, "BUKR-0001-a", 1, 2, "Ada", "ada@x.com",
          "General Admission", 1, ⟨16000, 2⟩, "NGN", .valid, some "R1", none,
          none⟩], [], [], 4⟩ "BUKR-0001-a" (some 3) 77 true = .ok st' →
      markUsed st' "BUKR-0001-a" (some 4) 78 true = .error .TicketAlreadyUsed) ∧
    (markUsed ⟨[⟨1, "BUKR-0001-a", 1, 2, "Ada", "ada@x.com", "General Admission",
          1, ⟨16000, 2⟩, "NGN", .valid, some "R1", none, none⟩], [], [], 4⟩
        "BUKR-0001-a" (some 3) 77 false).isOk =
      (markUsed ⟨[⟨1, "BUKR-0001-a", 1, 2, "Ada", "ada@x.com",
          "General Admission", 1, ⟨16000, 2⟩, "NGN", .valid, some "R1", none,
          none⟩], [], [], 4⟩ "BUKR-0001-a" (some 3) 77 true).isOk := by
  refine ⟨C5_markUsed_exactly_once.1 _ "BUKR-0001-a" (some 3) 77 true (by decide),
    by decide, ?_, (C5_markUsed_exactly_once.2.2 _ "BUKR-0001-a" (some 3) 77).1⟩
  intro st' h
  exact ((C5_markUsed_exactly_once.2.1 _ "BUKR-0001-a" (some 3) (some 4) 77 78
    true true st' h).2)

/-- C6: scan validation classifies exactly as the spec's state machine over
the (ticket id, event id) lookup: not found (or event mismatch) is Invalid
with no record; Used is AlreadyUsed with the prior scannedAt and holder
info; Valid is Admit ("valid") with ticket info and no consumption (the
classifier is a pure read); every other status is Invalid with the concrete
status named in the message.  The lookup misses exactly when no ticket row
matches both the id and the event. -/
theorem C6_scan_classification :
    (∀ st tid eid, validateByTicketId st tid eid =
      specScanClassify (scanLookup st tid eid)) ∧
    (∀ st tid eid, scanLookup st tid eid = none ↔
      ∀ t ∈ st.tickets, ¬(t.ticketId = tid ∧ t.eventId = eid)) := by
  constructor
  · intro st tid eid
    unfold validateByTicketId specScanClassify
    cases h : scanLookup st tid eid with
    | none => rfl
    | some r =>
      cases hr : r.status <;> simp [hr]
  · intro st tid eid
    unfold scanLookup
    rw [List.find?_eq_none]
    constructor
    · intro h t ht
      have := h t ht
      simpa using this
    · intro h t ht
      simpa using h t ht

/-- Witness for C6 on a concrete store exercising the classifier. -/
theorem C6_scan_classification_witness :
    validateByTicketId ⟨[⟨1, "BUKR-0001-a", 1, 2, "Ada", "ada@x.com",
        "General Admission", 1, ⟨16000, 2⟩, "NGN", .cancelled, some "R1", none,
        none⟩], [], [], 4⟩ "BUKR-0001-a" 1 =
      specScanClassify (scanLookup ⟨[⟨1, "BUKR-0001-a", 1, 2, "Ada", "ada@x.com",
        "General Admission", 1, ⟨16000, 2⟩, "NGN", .cancelled, some "R1", none,
        none⟩], [], [], 4⟩ "BUKR-0001-a" 1) :=
  C6_scan_classification.1 _ "BUKR-0001-a" 1

/-! ## Lemmas: webhook routes and signature verification -/

theorem verifyPaystackSignature_iff (hm : String → List Nat → String)
    (secret : String) (body : List Nat) (sig : String) :
    verifyPaystackSignature hm secret body sig = true ↔
      (secret = "" ∨ hm secret body = sig) := by
  unfold verifyPaystackSignature
  by_cases h : secret = "" <;> simp [h]

/-- C8 counterexample: the Stripe webhook endpoint reads the signature
header but performs no verification at all — for the same body it accepts
two different signature values ("a" and "b"), at most one of which can
equal any keyed hash of the body, and never returns Unauthorized.  This
refutes that every provider's webhook endpoint compares an HMAC of the raw
body and returns Unauthorized exactly on mismatch. -/
theorem C8_every_endpoint_verifies_counterexample :
    stripeWebhookRoute (fun _ => some ("checkout.session.completed", "R1"))
        ⟨[⟨1, "BUKR-0001-a", 1, 2, "Ada", "ada@x.com", "General Admission", 1,
            ⟨16000, 2⟩, "NGN", .pending, some "R1", none, none⟩],
          [⟨1, 2, "stripe", "R1", ⟨16000, 2⟩, "NGN", .pending, none⟩], [], 4⟩
        [1, 2, 3] (some "a") =
      .ok ⟨[⟨1, "BUKR-0001-a", 1, 2, "Ada", "ada@x.com", "General Admission", 1,
            ⟨16000, 2⟩, "NGN", .valid, some "R1", none, none⟩],
          [⟨1, 2, "stripe", "R1", ⟨16000, 2⟩, "NGN", .success, none⟩], [], 4⟩ ∧
    stripeWebhookRoute (fun _ => some ("checkout.session.completed", "R1"))
        ⟨[⟨1, "BUKR-0001-a", 1, 2, "Ada", "ada@x.com", "General Admission", 1,
            ⟨16000, 2⟩, "NGN", .pending, some "R1", none, none⟩],
          [⟨1, 2, "stripe", "R1", ⟨16000, 2⟩, "NGN", .pending, none⟩], [], 4⟩
        [1, 2, 3] (some "b") =
      .ok ⟨[⟨1, "BUKR-0001-a", 1, 2, "Ada", "ada@x.com", "General Admission", 1,
            ⟨16000, 2⟩, "NGN", .valid, some "R1", none, none⟩],
          [⟨1, 2, "stripe", "R1", ⟨16000, 2⟩, "NGN", .success, none⟩], [], 4⟩ ∧
    ("a" : String) ≠ "b" := by
  decide

/-- C8 amended: only the Paystack webhook endpoint verifies: it returns
Unauthorized exactly when the secret is nonempty and the keyed hash of the
raw body differs from the (possibly absent, defaulted-to-empty) signature
header; verification passes exactly when the secret is empty (degraded
development configuration) or the hash matches; the Stripe endpoint never
returns Unauthorized. -/
theorem C8_only_paystack_verifies :
    (∀ hm secret parse st body sigH,
      paystackWebhookRoute hm secret parse st body sigH = .error .Unauthorized ↔
        (secret ≠ "" ∧ hm secret body ≠ sigH.getD "")) ∧
    (∀ hm secret body sig,
      verifyPaystackSignature hm secret body sig = true ↔
        (secret = "" ∨ hm secret body = sig)) ∧
    (∀ parse st body sigH,
      stripeWebhookRoute parse st body sigH ≠ .error .Unauthorized) := by
  refine ⟨?_, verifyPaystackSignature_iff, ?_⟩
  · intro hm secret parse st body sigH
    unfold paystackWebhookRoute
    by_cases h : verifyPaystackSignature hm secret body (sigH.getD "") = true
    · rw [if_neg (by simpa using h)]
      constructor
      · intro hcon
        cases hp : parse body with
        | none =>
          rw [hp] at hcon
          exact absurd (Except.error.inj hcon) (fun x => AppErr.noConfusion x)
        | some payload =>
          rw [hp] at hcon
          exact Except.noConfusion hcon
      · rintro ⟨h1, h2⟩
        rcases (verifyPaystackSignature_iff hm secret body (sigH.getD "")).mp h
          with hc | hc
        · exact absurd hc h1
        · exact absurd hc h2
    · rw [if_pos (by simpa using h)]
      constructor
      · intro _
        constructor
        · intro hsec
          exact h ((verifyPaystackSignature_iff hm secret body
            (sigH.getD "")).mpr (Or.inl hsec))
        · intro hsig
          exact h ((verifyPaystackSignature_iff hm secret body
            (sigH.getD "")).mpr (Or.inr hsig))
      · intro _
        rfl
  · intro parse st body sigH
    unfold stripeWebhookRoute
    cases hp : parse body with
    | none =>
      intro hcon
      exact AppErr.noConfusion (Except.error.inj hcon)
    | some pr =>
      obtain ⟨ty, ref⟩ := pr
      intro hcon
      exact Except.noConfusion hcon

/-- Witness for C8 amended: a concrete keyed hash, secret and body on the
Paystack route (mismatch gives Unauthorized) and the Stripe route (never
Unauthorized). -/
theorem C8_only_paystack_verifies_witness :
    (paystackWebhookRoute (fun _ _ => "aaaa") "sk" (fun _ => none)
        ⟨[], [], [], 0⟩ [1, 2, 3] (some "bbbb") = .error .Unauthorized ↔
      (("sk" : String) ≠ "" ∧ ("aaaa" : String) ≠ "bbbb")) ∧
    stripeWebhookRoute (fun _ => none) ⟨[], [], [], 0⟩ [1, 2, 3] (some "bbbb") ≠
      .error .Unauthorized :=
  ⟨C8_only_paystack_verifies.1 (fun _ _ => "aaaa") "sk" (fun _ => none)
      ⟨[], [], [], 0⟩ [1, 2, 3] (some "bbbb"),
    C8_only_paystack_verifies.2.2 (fun _ => none) ⟨[], [], [], 0⟩ [1, 2, 3]
      (some "bbbb")⟩

/-! ## Lemmas: payment initialization -/

/-- C9 counterexample: a provider-call failure during payment
initialization returns `PaymentFailed` with no compensating writes: the
ticket stays `valid` (never marked Failed/Cancelled) and the event's
available counter stays at its debited value (9), instead of the claimed
compensation (mark Failed/Cancelled, add the reserved quantity back). -/
theorem C9_compensation_counterexample :
    initializePayment (fun _ => .error "Paystack request failed: connect timeout")
        "BUKR-PAY-9-000001"
        ⟨[⟨1, "BUKR-0001-a", 1, 2, "Ada", "ada@x.com", "General Admission", 1,
            ⟨16000, 2⟩, "NGN", .valid, some "R1", none, none⟩], [], [], 9⟩
        2 ⟨1, "paystack", "https://cb"⟩ =
      .error (.PaymentFailed "Paystack request failed: connect timeout") ∧
    initEndState (fun _ => .error "Paystack request failed: connect timeout")
        "BUKR-PAY-9-000001"
        ⟨[⟨1, "BUKR-0001-a", 1, 2, "Ada", "ada@x.com", "General Admission", 1,
            ⟨16000, 2⟩, "NGN", .valid, some "R1", none, none⟩], [], [], 9⟩
        2 ⟨1, "paystack", "https://cb"⟩ =
      ⟨[⟨1, "BUKR-0001-a", 1, 2, "Ada", "ada@x.com", "General Admission", 1,
          ⟨16000, 2⟩, "NGN", .valid, some "R1", none, none⟩], [], [], 9⟩ := by
  decide

/-- C9 amended: when the provider call fails during payment initialization
the operation returns `PaymentFailed` with the provider's error and performs
no state change at all: no ticket status transition, no inventory release,
no transaction row — there is no compensation logic. -/
theorem C9_provider_failure_no_compensation :
    ∀ (providerCall : Int → Except String String) (e : String)
      (freshRef : String) (st : Store) (userId : Nat)
      (req : InitPaymentRequest) (t : TicketRow),
      st.tickets.find?
          (fun t => decide (t.id = req.ticketId ∧ t.userId = userId)) = some t →
      (req.provider = "paystack" ∨ req.provider = "stripe") →
      (∀ a, providerCall a = .error e) →
      initializePayment providerCall freshRef st userId req =
        .error (.PaymentFailed e) ∧
      initEndState providerCall freshRef st userId req = st := by
  intro pc e freshRef st uid req t hfind hprov hfail
  have hmain : initializePayment pc freshRef st uid req =
      .error (.PaymentFailed e) := by
    unfold initializePayment
    split
    next hnone => rw [hfind] at hnone; exact Option.noConfusion hnone
    next ticket hsome =>
      rw [hfind] at hsome
      injection hsome with hsome
      subst hsome
      rcases hprov with hp | hp
      · rw [if_pos hp]
        simp only [hfail]
      · rw [if_neg (by rw [hp]; decide), if_pos hp]
        simp only [hfail]
  refine ⟨hmain, ?_⟩
  unfold initEndState
  rw [hmain]

/-- Witness for C9 amended at a concrete failing provider. -/
theorem C9_provider_failure_no_compensation_witness :
    initializePayment (fun _ => .error "connect timeout") "F1"
        ⟨[⟨1, "BUKR-0001-a", 1, 2, "Ada", "ada@x.com", "General Admission", 1,
            ⟨16000, 2⟩, "NGN", .valid, some "R1", none, none⟩], [], [], 9⟩
        2 ⟨1, "stripe", "https://cb"⟩ = .error (.PaymentFailed "connect timeout") ∧
    initEndState (fun _ => .error "connect timeout") "F1"
        ⟨[⟨1, "BUKR-0001-a", 1, 2, "Ada", "ada@x.com", "General Admission", 1,
            ⟨16000, 2⟩, "NGN", .valid, some "R1", none, none⟩], [], [], 9⟩
        2 ⟨1, "stripe", "https://cb"⟩ =
      ⟨[⟨1, "BUKR-0001-a", 1, 2, "Ada", "ada@x.com", "General Admission", 1,
          ⟨16000, 2⟩, "NGN", .valid, some "R1", none, none⟩], [], [], 9⟩ :=
  C9_provider_failure_no_compensation (fun _ => .error "connect timeout")
    "connect timeout" "F1"
    ⟨[⟨1, "BUKR-0001-a", 1, 2, "Ada", "ada@x.com", "General Admission", 1,
        ⟨16000, 2⟩, "NGN", .valid, some "R1", none, none⟩], [], [], 9⟩
    2 ⟨1, "stripe", "https://cb"⟩
    ⟨1, "BUKR-0001-a", 1, 2, "Ada", "ada@x.com", "General Admission", 1,
      ⟨16000, 2⟩, "NGN", .valid, some "R1", none, none⟩
    (by decide) (Or.inr rfl) (fun a => rfl)

theorem natChars_ne_nil (n : Nat) : natChars n ≠ [] := by
  unfold natChars
  by_cases h : n = 0
  · rw [if_pos h]
    simp
  · rw [if_neg h]
    simp [Nat.digits_ne_nil_iff_ne_zero.mpr h]

theorem parseI64Digits_none_of_dot (neg : Bool) (ds : List Char)
    (hdot : Char.ofNat 46 ∈ ds) : parseI64Digits neg ds = none := by
  have hne : ds ≠ [] := List.ne_nil_of_mem hdot
  have hall : ds.all (fun ch => ch.isDigit) = false := by
    rw [Bool.eq_false_iff]
    intro hcon
    exact absurd (List.all_eq_true.mp hcon _ hdot) (by decide)
  unfold parseI64Digits
  rw [if_neg (fun hh => hne (List.isEmpty_iff.mp hh)),
    if_neg (by rw [hall]; exact Bool.false_ne_true)]

theorem parseI64Chars_none_of_dot (c : Char) (X : List Char)
    (hdot : Char.ofNat 46 ∈ X) :
    parseI64Chars (c :: X) = none := by
  show (if c = Char.ofNat 45 ∨ c = Char.ofNat 43 then
      parseI64Digits (decide (c = Char.ofNat 45)) X
    else parseI64Digits false (c :: X)) = none
  by_cases hsign : c = Char.ofNat 45 ∨ c = Char.ofNat 43
  · rw [if_pos hsign]
    exact parseI64Digits_none_of_dot _ X hdot
  · rw [if_neg hsign]
    exact parseI64Digits_none_of_dot _ (c :: X) (List.mem_cons_of_mem c hdot)

theorem decChars_parse_none (d : Dec) (hs : d.s ≠ 0) :
    parseI64Chars (decChars d) = none := by
  unfold decChars
  rw [if_neg hs]
  by_cases hm : d.m < 0
  · rw [if_pos hm, List.singleton_append, List.cons_append, List.cons_append]
    exact parseI64Chars_none_of_dot _ _ (by simp)
  · rw [if_neg hm, List.nil_append]
    obtain ⟨a, A, hA⟩ := List.exists_cons_of_ne_nil
      (natChars_ne_nil (d.m.natAbs / 10 ^ d.s))
    rw [hA, List.cons_append, List.cons_append]
    exact parseI64Chars_none_of_dot _ _ (by simp)

/-- C10: whenever total_price × 100 is not an integer (its mantissa over the
retained scale leaves a remainder), `to_string` renders a fractional part,
`parse::<i64>` fails, and the amount silently defaults to 0; the
initialization then succeeds, creating a checkout session for zero currency
units instead of raising an error. -/
theorem C10_fractional_amount_defaults_to_zero :
    ∀ tp : Dec, tp.m * 100 % (10 : Int) ^ tp.s ≠ 0 →
      amountSmallestUnit tp = 0 ∧
      ∀ (f : Int → Except String String) (freshRef : String) (st : Store)
        (userId : Nat) (req : InitPaymentRequest) (t : TicketRow) (url : String),
        st.tickets.find?
            (fun t => decide (t.id = req.ticketId ∧ t.userId = userId)) =
          some t →
        t.totalPrice = tp → req.provider = "paystack" → f 0 = .ok url →
        initializePayment f freshRef st userId req =
          .ok (insertTxnOnConflict st
              ⟨req.ticketId, userId, "paystack", t.paymentRef.getD freshRef,
                t.totalPrice, t.currency, .pending, none⟩,
            ⟨"paystack", some url, none, t.paymentRef.getD freshRef⟩) := by
  intro tp hfrac
  have hs : tp.s ≠ 0 := by
    intro h
    apply hfrac
    rw [h]
    simp
  have hzero : amountSmallestUnit tp = 0 := by
    unfold amountSmallestUnit
    rw [decChars_parse_none (decMul tp ⟨100, 0⟩) (by simpa [decMul] using hs)]
    rfl
  refine ⟨hzero, ?_⟩
  intro f freshRef st uid req t url hfind htp hprov hurl
  unfold initializePayment
  split
  next hnone => rw [hfind] at hnone; exact Option.noConfusion hnone
  next ticket hsome =>
    rw [hfind] at hsome
    injection hsome with hsome
    subst hsome
    rw [if_pos hprov, htp, hzero]
    simp only [hurl]

/-- Witness for C10 at total_price = 100.005 (100.005 × 100 = 10000.500,
which fails to parse as i64). -/
theorem C10_fractional_amount_defaults_to_zero_witness :
    amountSmallestUnit ⟨100005, 3⟩ = 0 ∧
    initializePayment (fun _ => .ok "https://mock") "F1"
        ⟨[⟨1, "BUKR-0001-a", 1, 2, "Ada", "ada@x.com", "General Admission", 1,
            ⟨100005, 3⟩, "NGN", .valid, some "R1", none, none⟩], [], [], 9⟩
        2 ⟨1, "paystack", "https://cb"⟩ =
      .ok (insertTxnOnConflict
          ⟨[⟨1, "BUKR-0001-a", 1, 2, "Ada", "ada@x.com", "General Admission", 1,
              ⟨100005, 3⟩, "NGN", .valid, some "R1", none, none⟩], [], [], 9⟩
          ⟨1, 2, "paystack", "R1", ⟨100005, 3⟩, "NGN", .pending, none⟩,
        ⟨"paystack", some "https://mock", none, "R1"⟩) := by
  have h := C10_fractional_amount_defaults_to_zero ⟨100005, 3⟩ (by decide)
  exact ⟨h.1, h.2 (fun _ => .ok "https://mock") "F1" _ 2 ⟨1, "paystack", "https://cb"⟩
    ⟨1, "BUKR-0001-a", 1, 2, "Ada", "ada@x.com", "General Admission", 1,
      ⟨100005, 3⟩, "NGN", .valid, some "R1", none, none⟩ "https://mock"
    (by decide) rfl rfl rfl⟩

end Bukr
